import Mathlib

/-!
Verification of the Bondfire backend authentication core (`src/server.js`).

The embedding models the in-memory user store and the auth route handlers
(`/api/auth/login`, `register`, `forgot-password`, `reset-password`,
`/api/auth/mfa/setup|verify|disable`) as pure functions from an explicit
state (the `users` array) to a new state and a response.  External
collaborators that are libraries rather than repository code (bcryptjs,
speakeasy's TOTP, jsonwebtoken) are modelled by small pure functions that
expose exactly the behaviour the handlers rely on.
-/

namespace Bondfire

/-- A user record, as stored in the in-memory `users` array of `server.js`:
`{ id, name, email, passwordHash, mfaEnabled, mfaSecret, mfaTempSecret, resetToken }`.
Nullable JS fields become `Option String`. -/
structure User where
  id : String
  name : String
  email : String
  passwordHash : String
  mfaEnabled : Bool
  mfaSecret : Option String
  mfaTempSecret : Option String
  resetToken : Option String
deriving DecidableEq, Repr

/-- The mutable server state: the `users` array. -/
structure AuthState where
  users : List User
deriving DecidableEq, Repr

/-- Modelled from the spec: the Password Hasher (`bcryptjs.hashSync` in the
source, a library external to the repository).  Modelled as a deterministic
injective tagging function; the properties the handlers rely on are that
`bcryptCompare p (bcryptHash p) = true` and that distinct passwords do not
collide. -/
def bcryptHash (pw : String) : String := "bcrypt$" ++ pw

/-- Modelled from the spec: `bcryptjs.compareSync(pw, hash)` — verifies a
plaintext against a stored hash. -/
def bcryptCompare (pw hash : String) : Bool := bcryptHash pw == hash

/-- Embedding of JS `String.prototype.toLowerCase` for the ASCII emails the
handlers compare. -/
def jsToLower (s : String) : String := ⟨s.data.map Char.toLower⟩

/-- A TOTP code generator: maps a base32 secret and a time step to the code
for that step.  The handlers are parametric in it; `speakeasy`'s HMAC-based
generator is one instance. -/
def TotpGen : Type := String → Int → String

/-- Modelled from the spec: `speakeasy.totp.verify({secret, token, window})`
(a library external to the repository) — true iff the submitted code matches
the step code at any step within `±window` of the current step `now`. -/
def totpVerifyB (gen : TotpGen) (secret code : String) (window : Nat) (now : Int) : Bool :=
  (List.range (2 * window + 1)).any fun i =>
    gen secret (now - (window : Int) + (i : Int)) == code

/-- JWT claims carried by the tokens `generateToken` signs:
`{ sub, email, name }`. -/
structure Claims where
  sub : String
  email : String
  name : String
deriving DecidableEq, Repr

/-- A signed token.  The signature is modelled by embedding the signing
secret: a verifier holding `secret` accepts exactly the tokens whose `sig`
field equals it, which is the guarantee an HMAC signature provides. -/
structure Jwt where
  claims : Claims
  iat : Int
  exp : Int
  sig : String
deriving DecidableEq, Repr

/-- Token verification failure kinds, per §4.4 of the spec. -/
inductive JwtError where
  | Expired
  | Invalid
deriving DecidableEq, Repr

/-- Modelled from the spec: `jwt.sign(claims, secret, {expiresIn: ttl})`
(jsonwebtoken, a library external to the repository) — expiry is
`now + ttl`. -/
def jwtSign (c : Claims) (secret : String) (now ttl : Int) : Jwt :=
  { claims := c, iat := now, exp := now + ttl, sig := secret }

/-- Modelled from the spec: `jwt.verify(token, secret)` — fails `Invalid`
when the signature does not verify, `Expired` when `now` is past the
expiry, and otherwise returns the claims. -/
def jwtVerify (t : Jwt) (secret : String) (now : Int) : Except JwtError Claims :=
  if t.sig != secret then .error .Invalid
  else if now > t.exp then .error .Expired
  else .ok t.claims

/-- `generateToken(user)` from `server.js`: signs `{sub: id, email, name}`
with the server secret, `expiresIn: '1h'` (3600 s). -/
def generateToken (user : User) (secret : String) (now : Int) : Jwt :=
  jwtSign { sub := user.id, email := user.email, name := user.name } secret now 3600

/-- The case-insensitive email predicate used by every email lookup:
`u.email.toLowerCase() === String(email||'').toLowerCase()`. -/
def emailMatch (email : String) (u : User) : Bool :=
  jsToLower u.email == jsToLower email

/-- JS mutates the user object found by `Array.prototype.find`; in the
embedding this is replacing the first list element satisfying `p` by its
image under `f`. -/
def updateFirst (p : User → Bool) (f : User → User) : List User → List User
  | [] => []
  | u :: rest => if p u then f u :: rest else u :: updateFirst p f rest

/-- JS truthiness of an optional string field: `undefined`/absent and the
empty string are falsy. -/
def strFalsy : Option String → Bool
  | none => true
  | some s => s == ""

/-- JS `a || b` on optional string fields. -/
def jsOrStr (a b : Option String) : Option String :=
  if strFalsy a then b else a

/-- Result of `POST /api/auth/login`. -/
inductive LoginResult where
  | ok (token : Jwt) (id name email : String)
  | err (status : Nat) (message : String)
deriving DecidableEq, Repr

/-- Whether a login attempt succeeded (a token was issued). -/
def LoginResult.isOk : LoginResult → Bool
  | .ok _ _ _ _ => true
  | .err _ _ => false

/-- Result of `POST /api/auth/register` (success carries status 201). -/
inductive RegisterResult where
  | ok (token : Jwt) (id name email : String)
  | err (status : Nat) (message : String)
deriving DecidableEq, Repr

/-- Whether a registration succeeded. -/
def RegisterResult.isOk : RegisterResult → Bool
  | .ok _ _ _ _ => true
  | .err _ _ => false

/-- Result of the `{ok:true}`-style endpoints (reset, mfa verify/disable). -/
inductive SimpleResult where
  | ok
  | err (status : Nat) (message : String)
deriving DecidableEq, Repr

/-- Result of `GET /api/auth/mfa/setup`. -/
inductive MfaSetupResult where
  | ok (secret : String)
  | err (status : Nat) (message : String)
deriving DecidableEq, Repr

/-- `POST /api/auth/login`.  `mfa : Option String` models the optional
`mfa` body field (`some ""` is falsy, like the absent field).  The handler
does not mutate `users`, so the state is returned unchanged. -/
def login (gen : TotpGen) (now : Int) (secret : String) (s : AuthState)
    (email password : String) (mfa : Option String) : AuthState × LoginResult :=
  match s.users.find? (emailMatch email) with
  | none => (s, .err 401 "Invalid email or password")
  | some user =>
    if ! bcryptCompare password user.passwordHash then
      (s, .err 401 "Invalid email or password")
    else if user.mfaEnabled then
      if strFalsy mfa then (s, .err 401 "MFA code required")
      else if ! totpVerifyB gen (user.mfaSecret.getD "") (mfa.getD "") 1 now then
        (s, .err 401 "Invalid MFA code")
      else
        (s, .ok (generateToken user secret now) user.id user.name user.email)
    else
      (s, .ok (generateToken user secret now) user.id user.name user.email)

/-- The record `register` pushes onto `users`: id `u_<n+1>`, hashed
password, MFA off, no pending secrets or tokens. -/
def newUser (s : AuthState) (name email password : String) : User :=
  { id := "u_" ++ toString (s.users.length + 1), name := name, email := email,
    passwordHash := bcryptHash password,
    mfaEnabled := false, mfaSecret := none,
    mfaTempSecret := none, resetToken := none }

/-- `POST /api/auth/register`.  Empty (JS-falsy) name/email/password fail
validation; a duplicate normalized email fails 409; otherwise the user is
appended with id `u_<n+1>` and a token is issued. -/
def register (secret : String) (now : Int) (s : AuthState)
    (name email password : String) : AuthState × RegisterResult :=
  if name == "" || email == "" || password == "" then
    (s, .err 400 "Missing fields")
  else if s.users.any (emailMatch email) then
    (s, .err 409 "Email already registered")
  else
    let user := newUser s name email password
    (⟨s.users ++ [user]⟩, .ok (generateToken user secret now) user.id user.name user.email)

/-- Store a fresh reset token on a user (`user.resetToken = <random>`). -/
def setResetTok (t : String) (u : User) : User := { u with resetToken := some t }

/-- `POST /api/auth/forgot-password`.  The random token produced by
`Math.random().toString(36)...` is passed in as `tok`.  Always answers
`ok`; only an existing email gets a token stored. -/
def forgotPassword (s : AuthState) (email : String) (tok : String) :
    AuthState × SimpleResult :=
  match s.users.find? (emailMatch email) with
  | none => (s, .ok)
  | some _ => (⟨updateFirst (emailMatch email) (setResetTok tok) s.users⟩, .ok)

/-- The reset-token match `u.resetToken && u.resetToken === token`: the
stored token must be truthy (non-null, non-empty) and equal to the
submitted one. -/
def resetMatches (token : String) (u : User) : Bool :=
  match u.resetToken with
  | none => false
  | some t => ! (t == "") && t == token

/-- The mutation a successful reset applies to the matched user:
`passwordHash = hash(newPassword || ''); resetToken = null`. -/
def applyReset (np : Option String) (u : User) : User :=
  { u with passwordHash := bcryptHash (np.getD ""), resetToken := none }

/-- `POST /api/auth/reset-password`.  `np : Option String` models the
optional `newPassword` body field. -/
def resetPassword (s : AuthState) (token : String) (np : Option String) :
    AuthState × SimpleResult :=
  match s.users.find? (resetMatches token) with
  | none => (s, .err 400 "Invalid token")
  | some _ => (⟨updateFirst (resetMatches token) (applyReset np) s.users⟩, .ok)

/-- The id lookup `users.find(u => u.id === req.user.sub)`. -/
def idMatch (uid : String) (u : User) : Bool := u.id == uid

/-- `GET /api/auth/mfa/setup`: stores a freshly generated secret (passed in
as `newSecret`, produced by `speakeasy.generateSecret` in the source) as
the user's `mfaTempSecret` and returns it. -/
def mfaSetup (s : AuthState) (uid : String) (newSecret : String) :
    AuthState × MfaSetupResult :=
  match s.users.find? (idMatch uid) with
  | none => (s, .err 404 "User not found")
  | some _ =>
    (⟨updateFirst (idMatch uid) (fun u => { u with mfaTempSecret := some newSecret }) s.users⟩,
     .ok newSecret)

/-- The mutation a successful MFA verification applies:
`mfaEnabled = true; mfaSecret = base32; mfaTempSecret = null`. -/
def enableMfa (base32 : Option String) (u : User) : User :=
  { u with mfaEnabled := true, mfaSecret := base32, mfaTempSecret := none }

/-- `POST /api/auth/mfa/verify`: `base32 = secret || user.mfaTempSecret`;
missing token or secret is 400; an invalid code is 400; a valid code
enables MFA with `base32` as the active secret. -/
def mfaVerify (gen : TotpGen) (now : Int) (s : AuthState) (uid : String)
    (token secret : Option String) : AuthState × SimpleResult :=
  match s.users.find? (idMatch uid) with
  | none => (s, .err 404 "User not found")
  | some user =>
    let base32 := jsOrStr secret user.mfaTempSecret
    if strFalsy token || strFalsy base32 then
      (s, .err 400 "Missing token or secret")
    else if ! totpVerifyB gen (base32.getD "") (token.getD "") 1 now then
      (s, .err 400 "Invalid code")
    else
      (⟨updateFirst (idMatch uid) (enableMfa base32) s.users⟩, .ok)

/-- `POST /api/auth/mfa/disable`: clears both secrets, flips the flag. -/
def disableMfa (u : User) : User :=
  { u with mfaEnabled := false, mfaSecret := none, mfaTempSecret := none }

/-- `POST /api/auth/mfa/disable`. -/
def mfaDisable (s : AuthState) (uid : String) : AuthState × SimpleResult :=
  match s.users.find? (idMatch uid) with
  | none => (s, .err 404 "User not found")
  | some _ => (⟨updateFirst (idMatch uid) disableMfa s.users⟩, .ok)

/-- The seeded user of `server.js` (password `password123`). -/
def seedUser : User :=
  { id := "u_1", name := "Test User", email := "test@bondfire.org",
    passwordHash := bcryptHash "password123",
    mfaEnabled := false, mfaSecret := none, mfaTempSecret := none, resetToken := none }

/-- The initial server state: the single seeded user. -/
def initState : AuthState := ⟨[seedUser]⟩

/-- The §3 invariant: `mfaSecret` is present iff `mfaEnabled` is true,
for every user in the store. -/
def stateInv (s : AuthState) : Prop :=
  ∀ u ∈ s.users, u.mfaSecret.isSome = u.mfaEnabled

/-- A concrete TOTP generator used to instantiate the parametric theorems:
secret `SUPPB` yields code `123456` at step 0 and `000000` elsewhere. -/
def demoGen : TotpGen := fun s t => if s == "SUPPB" && t == 0 then "123456" else "000000"

/-- The seeded user part-way through MFA enrollment, with pending secret
`PENDA`. -/
def c1User : User := { seedUser with mfaTempSecret := some "PENDA" }

/-- A state whose only user has a pending (not yet confirmed) MFA secret. -/
def c1PendState : AuthState := ⟨[c1User]⟩

/-- The seeded user with MFA enabled on active secret `SUPPB`. -/
def mfaOnUser : User :=
  { seedUser with mfaEnabled := true, mfaSecret := some "SUPPB", mfaTempSecret := none }

/-- A state whose only user has MFA enabled. -/
def mfaOnState : AuthState := ⟨[mfaOnUser]⟩

/-- The seeded user holding an unconsumed reset token `tok9`. -/
def resetReadyUser : User := { seedUser with resetToken := some "tok9" }

/-- A state whose only user holds an unconsumed reset token. -/
def resetReadyState : AuthState := ⟨[resetReadyUser]⟩

/- ======================  Helper lemmas  ====================== -/

/-- Verifying a password against its own hash succeeds. -/
theorem bcryptCompare_hash_self (p : String) : bcryptCompare p (bcryptHash p) = true := by
  simp [bcryptCompare]

/-- Members of `updateFirst p f l` satisfy `P` whenever all members of `l`
do and `f` preserves `P` on members of `l`. -/
theorem updateFirst_pres (P : User → Prop) (p : User → Bool) (f : User → User) :
    ∀ l : List User, (∀ v ∈ l, P v) → (∀ v ∈ l, P v → P (f v)) →
      ∀ u ∈ updateFirst p f l, P u := by
  intro l
  induction l with
  | nil => intro _ _ u hu; simp [updateFirst] at hu
  | cons a rest ih =>
    intro h1 h2 u hu
    by_cases hpa : p a = true
    · simp only [updateFirst, hpa, if_true] at hu
      rcases List.mem_cons.mp hu with h | h
      · rw [h]; exact h2 a (by simp) (h1 a (by simp))
      · exact h1 u (by simp [h])
    · simp only [updateFirst, hpa, if_false] at hu
      rcases List.mem_cons.mp hu with h | h
      · rw [h]; exact h1 a (by simp)
      · exact ih (fun v hv => h1 v (by simp [hv]))
          (fun v hv hPv => h2 v (by simp [hv]) hPv) u h

/-- A user who has just received token `t` matches a reset with `t`,
provided `t` is truthy (non-empty). -/
theorem resetMatches_setResetTok (t : String) (ht : t ≠ "") (u : User) :
    resetMatches t (setResetTok t u) = true := by
  simp [resetMatches, setResetTok, ht]

/-- A user whose reset has just been applied no longer matches any reset
with `t` (the token field is cleared). -/
theorem resetMatches_applyReset (t : String) (np : Option String) (u : User) :
    resetMatches t (applyReset np u) = false := by
  simp [resetMatches, applyReset]

/-- A user not holding token `t` does not match a reset with `t`. -/
theorem resetMatches_of_fresh (t : String) (u : User) (h : u.resetToken ≠ some t) :
    resetMatches t u = false := by
  unfold resetMatches
  cases hr : u.resetToken with
  | none => rfl
  | some v =>
    have hvt : v ≠ t := fun he => h (by rw [hr, he])
    simp [hvt]

/-- The structure of the forgot-then-reset pipeline on the user list: if no
user holds token `t` and some user matches the email, then after storing
`t` on the first email match exactly one reset match exists, and after
applying the reset to it no user matches `t` any more. -/
theorem reset_pipeline (email t : String) (np : Option String) (ht : t ≠ "") :
    ∀ l : List User, (∀ u ∈ l, u.resetToken ≠ some t) →
      (l.find? (emailMatch email)).isSome = true →
      ((updateFirst (emailMatch email) (setResetTok t) l).find?
          (resetMatches t)).isSome = true ∧
      (∀ u ∈ updateFirst (resetMatches t) (applyReset np)
          (updateFirst (emailMatch email) (setResetTok t) l),
        resetMatches t u = false) := by
  intro l
  induction l with
  | nil => intro _ hf; simp at hf
  | cons a rest ih =>
    intro hfresh hf
    by_cases hea : emailMatch email a = true
    · constructor
      · simp only [updateFirst, hea, if_true]
        rw [List.find?_cons_of_pos _ (resetMatches_setResetTok t ht a)]
        rfl
      · simp only [updateFirst, hea, if_true]
        intro u hu
        simp only [updateFirst, resetMatches_setResetTok t ht a, if_true] at hu
        rcases List.mem_cons.mp hu with h | h
        · rw [h]; exact resetMatches_applyReset t np _
        · exact resetMatches_of_fresh t u (hfresh u (by simp [h]))
    · have hra : resetMatches t a = false :=
        resetMatches_of_fresh t a (hfresh a (by simp))
      have hf' : (rest.find? (emailMatch email)).isSome = true := by
        rw [List.find?_cons_of_neg _ (by simp [hea])] at hf; exact hf
      obtain ⟨ih1, ih2⟩ := ih (fun u hu => hfresh u (by simp [hu])) hf'
      constructor
      · simp only [updateFirst, hea, Bool.false_eq_true, if_false]
        rw [List.find?_cons_of_neg _ (by simp [hra])]
        exact ih1
      · simp only [updateFirst, hea, Bool.false_eq_true, if_false]
        intro u hu
        simp only [updateFirst, hra, Bool.false_eq_true, if_false] at hu
        rcases List.mem_cons.mp hu with h | h
        · rw [h]; exact hra
        · exact ih2 u h

/- ======================  Claim theorems  ====================== -/

/-- Claim C2: for a user holding an unconsumed reset token `t` freshly set
by a password-reset request (no user held `t` before, `t` is non-empty as
the generator guarantees), the first `resetPassword` with `t` succeeds,
rehashing the password and clearing the token of the matched user
(`applyReset`), and a second call with the same `t` fails with the
`Invalid token` error, leaving the state unchanged. -/
theorem C2_reset_token_single_use (s : AuthState) (email t : String)
    (np1 np2 : Option String) (ht : t ≠ "")
    (hfresh : ∀ u ∈ s.users, u.resetToken ≠ some t)
    (hfound : (s.users.find? (emailMatch email)).isSome = true) :
    (resetPassword (forgotPassword s email t).1 t np1).2 = .ok ∧
    (resetPassword (forgotPassword s email t).1 t np1).1.users
      = updateFirst (resetMatches t) (applyReset np1) (forgotPassword s email t).1.users ∧
    resetPassword (resetPassword (forgotPassword s email t).1 t np1).1 t np2
      = ((resetPassword (forgotPassword s email t).1 t np1).1,
         .err 400 "Invalid token") := by
  obtain ⟨w, hw⟩ := Option.isSome_iff_exists.mp hfound
  have hforgot : (forgotPassword s email t).1
      = ⟨updateFirst (emailMatch email) (setResetTok t) s.users⟩ := by
    simp [forgotPassword, hw]
  obtain ⟨hp1, hp2⟩ := reset_pipeline email t np1 ht s.users hfresh hfound
  obtain ⟨v, hv⟩ := Option.isSome_iff_exists.mp hp1
  have hreset1 : resetPassword (forgotPassword s email t).1 t np1
      = (⟨updateFirst (resetMatches t) (applyReset np1)
          (updateFirst (emailMatch email) (setResetTok t) s.users)⟩, .ok) := by
    rw [hforgot]; simp [resetPassword, hv]
  have hnone : ((updateFirst (resetMatches t) (applyReset np1)
      (updateFirst (emailMatch email) (setResetTok t) s.users)).find?
        (resetMatches t)) = none :=
    List.find?_eq_none.mpr (fun x hx => by simp [hp2 x hx])
  refine ⟨?_, ?_, ?_⟩
  · rw [hreset1]
  · rw [hreset1, hforgot]
  · rw [hreset1]
    simp [resetPassword, hnone]

/-- Claim C2 witness at the seeded state with token `tok9`. -/
theorem C2_reset_token_single_use_witness :
    (resetPassword (forgotPassword initState "test@bondfire.org" "tok9").1
        "tok9" (some "newpw")).2 = .ok ∧
    (resetPassword (forgotPassword initState "test@bondfire.org" "tok9").1
        "tok9" (some "newpw")).1.users
      = updateFirst (resetMatches "tok9") (applyReset (some "newpw"))
          (forgotPassword initState "test@bondfire.org" "tok9").1.users ∧
    resetPassword (resetPassword (forgotPassword initState "test@bondfire.org" "tok9").1
        "tok9" (some "newpw")).1 "tok9" (some "again")
      = ((resetPassword (forgotPassword initState "test@bondfire.org" "tok9").1
          "tok9" (some "newpw")).1, .err 400 "Invalid token") :=
  C2_reset_token_single_use initState "test@bondfire.org" "tok9" (some "newpw")
    (some "again") (by decide) (by decide) (by decide)

/-- Claim C8: issuing a token (`generateToken`, which signs `{sub, email,
name}` with the server secret) and immediately verifying it with the same
secret succeeds and returns exactly the subject id, email, and name that
were supplied. -/
theorem C8_token_roundtrip (u : User) (secret : String) (now : Int) :
    jwtVerify (generateToken u secret now) secret now
      = .ok { sub := u.id, email := u.email, name := u.name } := by
  simp only [jwtVerify, generateToken, jwtSign, bne_self_eq_false, Bool.false_eq_true,
    if_false]
  rw [if_neg (by omega)]

/-- Claim C9: token verification distinguishes the two failure kinds: a
token whose expiry is in the past (negative ttl) verifies to `Expired`
under the server's secret, a token signed with a different secret verifies
to `Invalid`, and the two outcomes are distinct. -/
theorem C9_expired_vs_invalid (c : Claims) (serverSecret otherSecret : String)
    (now ttl ttl2 : Int) (hneg : ttl < 0) (hdiff : otherSecret ≠ serverSecret) :
    jwtVerify (jwtSign c serverSecret now ttl) serverSecret now = .error .Expired ∧
    jwtVerify (jwtSign c otherSecret now ttl2) serverSecret now = .error .Invalid ∧
    JwtError.Expired ≠ JwtError.Invalid := by
  refine ⟨?_, ?_, by decide⟩
  · simp only [jwtVerify, jwtSign, bne_self_eq_false, Bool.false_eq_true, if_false]
    rw [if_pos (by omega)]
  · simp [jwtVerify, jwtSign, bne_iff_ne, hdiff]

/-- Claim C9 witness at `ttl = -1` and concrete distinct secrets. -/
theorem C9_expired_vs_invalid_witness :
    jwtVerify (jwtSign ⟨"u_1", "test@bondfire.org", "Test User"⟩ "dev-secret" 1000 (-1))
        "dev-secret" 1000 = .error .Expired ∧
    jwtVerify (jwtSign ⟨"u_1", "test@bondfire.org", "Test User"⟩ "other-secret" 1000 3600)
        "dev-secret" 1000 = .error .Invalid ∧
    JwtError.Expired ≠ JwtError.Invalid :=
  C9_expired_vs_invalid ⟨"u_1", "test@bondfire.org", "Test User"⟩ "dev-secret" "other-secret"
    1000 (-1) 3600 (by decide) (by decide)

/-- Claim C3: login with an email matching no user and login with a
password failing verification both fail with status 401 and the same
user-facing message, `Invalid email or password`. -/
theorem C3_login_enumeration_defense (gen : TotpGen) (now : Int) (secret : String)
    (s : AuthState) (email password : String) (mfa : Option String) :
    (s.users.find? (emailMatch email) = none →
      (login gen now secret s email password mfa).2 = .err 401 "Invalid email or password") ∧
    (∀ u, s.users.find? (emailMatch email) = some u →
      bcryptCompare password u.passwordHash = false →
      (login gen now secret s email password mfa).2 = .err 401 "Invalid email or password") := by
  constructor
  · intro h
    simp [login, h]
  · intro u hfind hpw
    simp [login, hfind, hpw]

/-- Claim C3 witness: a nonexistent email and the seeded user with a wrong
password produce the identical error. -/
theorem C3_login_enumeration_defense_witness :
    (login demoGen 0 "dev-secret" initState "nobody@x.com" "pw" none).2
      = .err 401 "Invalid email or password" ∧
    (login demoGen 0 "dev-secret" initState "test@bondfire.org" "wrongpw" none).2
      = .err 401 "Invalid email or password" :=
  ⟨(C3_login_enumeration_defense demoGen 0 "dev-secret" initState "nobody@x.com"
      "pw" none).1 (by decide),
   (C3_login_enumeration_defense demoGen 0 "dev-secret" initState "test@bondfire.org"
      "wrongpw" none).2 seedUser (by decide) (by decide)⟩

/-- Claim C4 counterexample: the validation check runs before the
duplicate check, so a second registration with the same normalized email
but an empty name fails with the 400 `Missing fields` validation error,
not with the 409 `DuplicateEmail` error the claim requires. -/
theorem C4_counterexample :
    (register "dev-secret" 0 initState "Alice" "new@x.com" "pw").2.isOk = true ∧
    jsToLower "new@x.com" = jsToLower "NEW@X.COM" ∧
    (register "dev-secret" 0 (register "dev-secret" 0 initState "Alice" "new@x.com" "pw").1
        "" "NEW@X.COM" "pw").2 = .err 400 "Missing fields" ∧
    RegisterResult.err 400 "Missing fields"
      ≠ RegisterResult.err 409 "Email already registered" := by
  decide

/-- Claim C4 as amended: after a successful registration, a second
register call with an email equal after lower-casing fails and adds no
user; it fails with `DuplicateEmail` (409, `Email already registered`)
when its name, email and password are all non-empty, and with the
`Missing fields` validation error when any of them is empty. -/
theorem C4_duplicate_email (secret : String) (now now2 : Int) (s : AuthState)
    (n1 e1 p1 n2 e2 p2 : String)
    (hcase : jsToLower e1 = jsToLower e2)
    (hok : (register secret now s n1 e1 p1).2.isOk = true) :
    (n2 ≠ "" → e2 ≠ "" → p2 ≠ "" →
      register secret now2 (register secret now s n1 e1 p1).1 n2 e2 p2
        = ((register secret now s n1 e1 p1).1, .err 409 "Email already registered")) ∧
    ((n2 = "" ∨ e2 = "" ∨ p2 = "") →
      register secret now2 (register secret now s n1 e1 p1).1 n2 e2 p2
        = ((register secret now s n1 e1 p1).1, .err 400 "Missing fields")) := by
  by_cases hval : (n1 == "" || e1 == "" || p1 == "") = true
  · simp [register, hval, RegisterResult.isOk] at hok
  · by_cases hdup : s.users.any (emailMatch e1) = true
    · simp [register, hval, hdup, RegisterResult.isOk] at hok
    · have hreg : register secret now s n1 e1 p1
          = (⟨s.users ++ [newUser s n1 e1 p1]⟩,
             .ok (generateToken (newUser s n1 e1 p1) secret now)
               (newUser s n1 e1 p1).id (newUser s n1 e1 p1).name
               (newUser s n1 e1 p1).email) := by
        simp [register, hval, hdup]
      have hm : emailMatch e2 (newUser s n1 e1 p1) = true := by
        simp [emailMatch, newUser, hcase]
      constructor
      · intro hn2 he2 hp2
        rw [hreg]
        have hval2 : ¬ (n2 == "" || e2 == "" || p2 == "") = true := by
          simp [hn2, he2, hp2]
        have hdup2 : (s.users ++ [newUser s n1 e1 p1]).any (emailMatch e2) = true := by
          simp [List.any_append, hm]
        simp [register, hval2, hdup2]
      · intro hemp
        rw [hreg]
        have hval2 : (n2 == "" || e2 == "" || p2 == "") = true := by
          rcases hemp with h | h | h <;> simp [h]
        simp [register, hval2]

/-- Claim C4 witness: the amended behaviour at a concrete duplicate
registration with non-empty fields. -/
theorem C4_duplicate_email_witness :
    register "dev-secret" 1 (register "dev-secret" 0 initState "Alice" "new@x.com" "pw").1
        "Bob" "NEW@X.COM" "pw2"
      = ((register "dev-secret" 0 initState "Alice" "new@x.com" "pw").1,
         .err 409 "Email already registered") :=
  (C4_duplicate_email "dev-secret" 0 1 initState "Alice" "new@x.com" "pw"
    "Bob" "NEW@X.COM" "pw2" (by decide) (by decide)).1
    (by decide) (by decide) (by decide)

/-- Claim C5: registering a non-empty name, email and password whose
normalized email matches no existing user succeeds, and a subsequent
login with the same email and password succeeds. -/
theorem C5_register_then_login (gen : TotpGen) (secret : String) (now now2 : Int)
    (s : AuthState) (n e p : String)
    (hn : n ≠ "") (he : e ≠ "") (hp : p ≠ "")
    (hfresh : ∀ u ∈ s.users, emailMatch e u = false) :
    (register secret now s n e p).2.isOk = true ∧
    (login gen now2 secret (register secret now s n e p).1 e p none).2.isOk = true := by
  have hval : ¬ (n == "" || e == "" || p == "") = true := by simp [hn, he, hp]
  have hany : s.users.any (emailMatch e) = false :=
    List.any_eq_false.mpr (fun x hx => by simp [hfresh x hx])
  have hreg : register secret now s n e p
      = (⟨s.users ++ [newUser s n e p]⟩,
         .ok (generateToken (newUser s n e p) secret now)
           (newUser s n e p).id (newUser s n e p).name (newUser s n e p).email) := by
    simp [register, hval, hany]
  refine ⟨by rw [hreg]; rfl, ?_⟩
  rw [hreg]
  have hfind : (s.users ++ [newUser s n e p]).find? (emailMatch e)
      = some (newUser s n e p) := by
    rw [List.find?_append, List.find?_eq_none.mpr (fun x hx => by simp [hfresh x hx])]
    simp [emailMatch, newUser]
  simp only [login, hfind]
  simp [newUser, bcryptCompare_hash_self, LoginResult.isOk]

/-- Claim C5 witness: a fresh registration on the seeded state followed by
a login with the same credentials. -/
theorem C5_register_then_login_witness :
    (register "dev-secret" 0 initState "Alice" "alice@x.com" "hunter2").2.isOk = true ∧
    (login demoGen 5 "dev-secret"
        (register "dev-secret" 0 initState "Alice" "alice@x.com" "hunter2").1
        "alice@x.com" "hunter2" none).2.isOk = true :=
  C5_register_then_login demoGen "dev-secret" 0 5 initState "Alice" "alice@x.com"
    "hunter2" (by decide) (by decide) (by decide) (by decide)

/-- Claim C1 counterexample: the handler never compares an explicitly
supplied secret with the pending one.  With pending secret `PENDA`, a
verify call supplying secret `SUPPB` (≠ `PENDA`) and a code valid against
`SUPPB` succeeds and enables MFA on `SUPPB`, so MFA is enabled although
the supplied secret does not match the pending secret. -/
theorem C1_counterexample :
    c1PendState.users.map User.mfaTempSecret = [some "PENDA"] ∧
    ("SUPPB" : String) ≠ "PENDA" ∧
    (mfaVerify demoGen 0 c1PendState "u_1" (some "123456") (some "SUPPB")).2 = .ok ∧
    (mfaVerify demoGen 0 c1PendState "u_1" (some "123456") (some "SUPPB")).1.users.map
        User.mfaEnabled = [true] ∧
    (mfaVerify demoGen 0 c1PendState "u_1" (some "123456") (some "SUPPB")).1.users.map
        User.mfaSecret = [some "SUPPB"] := by
  decide

/-- Claim C1 as amended: when an explicit non-empty secret is supplied,
the pending secret is ignored — MFA is enabled iff the submitted code is
valid against the supplied secret; on success the supplied secret becomes
the active `mfaSecret`, `mfaEnabled` becomes true, and the pending secret
is cleared; on an invalid code the state is unchanged. -/
theorem C1_mfa_verify_explicit_secret (gen : TotpGen) (now : Int) (s : AuthState)
    (uid tok sec : String) (u : User)
    (hfind : s.users.find? (idMatch uid) = some u)
    (htok : tok ≠ "") (hsec : sec ≠ "") :
    (totpVerifyB gen sec tok 1 now = true →
      mfaVerify gen now s uid (some tok) (some sec)
        = (⟨updateFirst (idMatch uid) (enableMfa (some sec)) s.users⟩, .ok)) ∧
    (totpVerifyB gen sec tok 1 now = false →
      mfaVerify gen now s uid (some tok) (some sec) = (s, .err 400 "Invalid code")) := by
  have hb : jsOrStr (some sec) u.mfaTempSecret = some sec := by
    simp [jsOrStr, strFalsy, hsec]
  constructor
  · intro hv
    simp [mfaVerify, hfind, hb, strFalsy, htok, hsec, hv]
  · intro hv
    simp [mfaVerify, hfind, hb, strFalsy, htok, hsec, hv]

/-- Claim C1 witness: the amended behaviour at the concrete pending-state
counterexample input. -/
theorem C1_mfa_verify_explicit_secret_witness :
    mfaVerify demoGen 0 c1PendState "u_1" (some "123456") (some "SUPPB")
      = (⟨updateFirst (idMatch "u_1") (enableMfa (some "SUPPB")) c1PendState.users⟩, .ok) :=
  (C1_mfa_verify_explicit_secret demoGen 0 c1PendState "u_1" "123456" "SUPPB" c1User
    (by decide) (by decide) (by decide)).1 (by decide)

/-- Claim C6: for a user with MFA enabled whose password check passes,
login without a code fails with `MFA code required`; login with a
(non-empty) code failing TOTP verification against the active secret with
window ±1 fails with `Invalid MFA code`; login with a code valid within
the window issues a token. -/
theorem C6_login_mfa_gate (gen : TotpGen) (now : Int) (secret : String) (s : AuthState)
    (email pw code : String) (u : User)
    (hfind : s.users.find? (emailMatch email) = some u)
    (hmfa : u.mfaEnabled = true)
    (hpw : bcryptCompare pw u.passwordHash = true) :
    (login gen now secret s email pw none).2 = .err 401 "MFA code required" ∧
    (code ≠ "" → totpVerifyB gen (u.mfaSecret.getD "") code 1 now = false →
      (login gen now secret s email pw (some code)).2 = .err 401 "Invalid MFA code") ∧
    (code ≠ "" → totpVerifyB gen (u.mfaSecret.getD "") code 1 now = true →
      (login gen now secret s email pw (some code)).2
        = .ok (generateToken u secret now) u.id u.name u.email) := by
  refine ⟨?_, ?_, ?_⟩
  · simp [login, hfind, hpw, hmfa, strFalsy]
  · intro hc hv
    simp [login, hfind, hpw, hmfa, strFalsy, hc, hv]
  · intro hc hv
    simp [login, hfind, hpw, hmfa, strFalsy, hc, hv]

/-- Claim C6 witness: the MFA-enabled seeded user under the concrete
generator — no code, a wrong code, and the valid code `123456`. -/
theorem C6_login_mfa_gate_witness :
    (login demoGen 0 "dev-secret" mfaOnState "test@bondfire.org" "password123" none).2
      = .err 401 "MFA code required" ∧
    (login demoGen 0 "dev-secret" mfaOnState "test@bondfire.org" "password123"
        (some "999999")).2 = .err 401 "Invalid MFA code" ∧
    (login demoGen 0 "dev-secret" mfaOnState "test@bondfire.org" "password123"
        (some "123456")).2
      = .ok (generateToken mfaOnUser "dev-secret" 0) mfaOnUser.id mfaOnUser.name
          mfaOnUser.email :=
  ⟨(C6_login_mfa_gate demoGen 0 "dev-secret" mfaOnState "test@bondfire.org" "password123"
      "999999" mfaOnUser (by decide) (by decide) (by decide)).1,
   (C6_login_mfa_gate demoGen 0 "dev-secret" mfaOnState "test@bondfire.org" "password123"
      "999999" mfaOnUser (by decide) (by decide) (by decide)).2.1 (by decide) (by decide),
   (C6_login_mfa_gate demoGen 0 "dev-secret" mfaOnState "test@bondfire.org" "password123"
      "123456" mfaOnUser (by decide) (by decide) (by decide)).2.2 (by decide) (by decide)⟩

/-- Claim C10: `resetPassword` succeeds even when the new password is
absent (`none`) or empty (`some ""`), setting the matched user's
`passwordHash` to the hash of the empty string, while `register` rejects
an empty password with the `Missing fields` validation error. -/
theorem C10_reset_accepts_empty_password (s s2 : AuthState) (t n e secret : String)
    (now : Int) (u : User)
    (hfind : s.users.find? (resetMatches t) = some u) :
    (resetPassword s t none).2 = .ok ∧
    (resetPassword s t (some "")).2 = .ok ∧
    (resetPassword s t none).1.users
      = updateFirst (resetMatches t) (applyReset none) s.users ∧
    (applyReset none u).passwordHash = bcryptHash "" ∧
    (applyReset (some "") u).passwordHash = bcryptHash "" ∧
    (register secret now s2 n e "").2 = .err 400 "Missing fields" := by
  refine ⟨by simp [resetPassword, hfind], by simp [resetPassword, hfind],
    by simp [resetPassword, hfind], rfl, rfl, by simp [register]⟩

/-- A non-falsy optional string is present. -/
theorem isSome_of_strFalsy_false (o : Option String) (h : strFalsy o = false) :
    o.isSome = true := by
  cases o with
  | none => simp [strFalsy] at h
  | some v => rfl

/-- The login handler does not change the user store. -/
theorem login_fst (gen : TotpGen) (now : Int) (secret : String) (s : AuthState)
    (email pw : String) (mfa : Option String) :
    (login gen now secret s email pw mfa).1 = s := by
  rcases h : s.users.find? (emailMatch email) with _ | u
  · simp [login, h]
  · simp only [login, h]
    split_ifs <;> rfl

/-- Claim C7: every core operation (register, login, resetPassword,
mfaSetup, mfaVerify, mfaDisable) preserves the invariant that `mfaSecret`
is present iff `mfaEnabled` is true, for every stored user. -/
theorem C7_mfa_secret_invariant (gen : TotpGen) (now : Int) (secret : String)
    (s : AuthState) (hinv : stateInv s)
    (n e p email pw t uid ns : String) (np mfa tok sec : Option String) :
    stateInv (register secret now s n e p).1 ∧
    stateInv (login gen now secret s email pw mfa).1 ∧
    stateInv (resetPassword s t np).1 ∧
    stateInv (mfaSetup s uid ns).1 ∧
    stateInv (mfaVerify gen now s uid tok sec).1 ∧
    stateInv (mfaDisable s uid).1 := by
  refine ⟨?_, ?_, ?_, ?_, ?_, ?_⟩
  · by_cases hval : (n == "" || e == "" || p == "") = true
    · simpa [register, hval] using hinv
    · by_cases hdup : s.users.any (emailMatch e) = true
      · simpa [register, hval, hdup] using hinv
      · intro u hu
        simp [register, hval, hdup] at hu
        rcases hu with h | h
        · exact hinv u h
        · rw [h]; rfl
  · rw [login_fst]; exact hinv
  · rcases h : s.users.find? (resetMatches t) with _ | v
    · simpa [resetPassword, h] using hinv
    · intro u hu
      simp [resetPassword, h] at hu
      exact updateFirst_pres _ _ (applyReset np) s.users hinv (fun w _ hw => hw) u hu
  · rcases h : s.users.find? (idMatch uid) with _ | v
    · simpa [mfaSetup, h] using hinv
    · intro u hu
      simp [mfaSetup, h] at hu
      exact updateFirst_pres _ _ (fun w => { w with mfaTempSecret := some ns })
        s.users hinv (fun w _ hw => hw) u hu
  · rcases h : s.users.find? (idMatch uid) with _ | v
    · simpa [mfaVerify, h] using hinv
    · by_cases hmiss : (strFalsy tok || strFalsy (jsOrStr sec v.mfaTempSecret)) = true
      · simpa [mfaVerify, h, hmiss] using hinv
      · rcases Bool.or_eq_false_iff.mp (Bool.eq_false_iff.mpr hmiss) with ⟨_, h2⟩
        have hsome : (jsOrStr sec v.mfaTempSecret).isSome = true :=
          isSome_of_strFalsy_false _ h2
        by_cases hcode : totpVerifyB gen ((jsOrStr sec v.mfaTempSecret).getD "")
            (tok.getD "") 1 now = true
        · intro u hu
          simp [mfaVerify, h, hmiss, hcode] at hu
          exact updateFirst_pres _ _ (enableMfa (jsOrStr sec v.mfaTempSecret))
            s.users hinv (fun w _ _ => by simp [enableMfa, hsome]) u hu
        · simpa [mfaVerify, h, hmiss, hcode] using hinv
  · rcases h : s.users.find? (idMatch uid) with _ | v
    · simpa [mfaDisable, h] using hinv
    · intro u hu
      simp [mfaDisable, h] at hu
      exact updateFirst_pres _ _ disableMfa s.users hinv (fun w _ _ => rfl) u hu

/-- Claim C7 witness: all six operations applied at the seeded state. -/
theorem C7_mfa_secret_invariant_witness :
    stateInv (register "dev-secret" 0 initState "Alice" "a@x.com" "pw").1 ∧
    stateInv (login demoGen 0 "dev-secret" initState "test@bondfire.org"
      "password123" none).1 ∧
    stateInv (resetPassword initState "tok9" none).1 ∧
    stateInv (mfaSetup initState "u_1" "NEWSEC").1 ∧
    stateInv (mfaVerify demoGen 0 initState "u_1" (some "123456") (some "SUPPB")).1 ∧
    stateInv (mfaDisable initState "u_1").1 :=
  C7_mfa_secret_invariant demoGen 0 "dev-secret" initState
    (by intro u hu; rw [List.mem_singleton.mp hu]; rfl)
    "Alice" "a@x.com" "pw" "test@bondfire.org" "password123" "tok9" "u_1" "NEWSEC"
    none none (some "123456") (some "SUPPB")

/-- Claim C10 witness: the seeded user holding reset token `tok9`. -/
theorem C10_reset_accepts_empty_password_witness :
    (resetPassword resetReadyState "tok9" none).2 = .ok ∧
    (resetPassword resetReadyState "tok9" (some "")).2 = .ok ∧
    (resetPassword resetReadyState "tok9" none).1.users
      = updateFirst (resetMatches "tok9") (applyReset none) resetReadyState.users ∧
    (applyReset none resetReadyUser).passwordHash = bcryptHash "" ∧
    (applyReset (some "") resetReadyUser).passwordHash = bcryptHash "" ∧
    (register "dev-secret" 0 initState "Alice" "alice@x.com" "").2
      = .err 400 "Missing fields" :=
  C10_reset_accepts_empty_password resetReadyState initState "tok9" "Alice" "alice@x.com"
    "dev-secret" 0 resetReadyUser (by decide)

end Bondfire
